import Mathlib

/-!
Shallow embedding of the Semantic-Truth-Engine core (query synthesis with
retry, subgraph fact extraction, ground-truth resolution, confidence
synthesis, lineage reconstruction, orchestration), translated from the
Python sources under `src/`.  External collaborators (the LLM completion
capability, the Neo4j store, the Wikipedia lookup) are modelled as oracle
functions passed in as parameters; Python exceptions raised by a
collaborator are modelled with `Except`/`Option` results.  Python floats
are modelled as exact rationals.
-/

namespace STE

/-- A character is in the Python regex class `[0-9.]`. -/
def isDigitDot (c : Char) : Bool := c.isDigit || c == '.'

/-- A character matches Python's regex `\s` (ASCII whitespace; the
verification responses parsed here are treated as ASCII text). -/
def isPySpace (c : Char) : Bool :=
  c == ' ' || c == '\t' || c == '\n' || c == '\r' || c == '\x0b' || c == '\x0c'

/-- A character is in the regex class `[:\s]`. -/
def isColonSpace (c : Char) : Bool := c == ':' || isPySpace c

/-- Numeric value of a digit string, as `float("...")` computes it for the
integer or fractional part. -/
def digitsVal (cs : List Char) : Nat :=
  cs.foldl (fun a c => a * 10 + (c.toNat - '0'.toNat)) 0

/-- Model of Python `float(s)` restricted to strings drawn from the
character class `[0-9.]` (the only inputs it receives here): at most one
dot and at least one digit, else a `ValueError` (`none`). -/
def parseDec (cs : List Char) : Option ℚ :=
  let intPart := cs.takeWhile (fun c => c ≠ '.')
  let rest := cs.dropWhile (fun c => c ≠ '.')
  match rest with
  | [] => if cs.isEmpty then none else some ((digitsVal cs : ℚ))
  | _ :: frac =>
    if frac.contains '.' then none
    else if intPart.isEmpty && frac.isEmpty then none
    else some ((digitsVal intPart : ℚ) + (digitsVal frac : ℚ) / (10 ^ frac.length))

/-- Attempt the tail of regex `KEYWORD[:\s]+([0-9.]+)` at the current
position: one-or-more `[:\s]`, then the captured maximal `[0-9.]+` run.
The character classes are disjoint, so greedy matching without
backtracking is exact here. -/
def matchColonNum (rest : List Char) : Option (List Char) :=
  let (ws, r1) := rest.span isColonSpace
  if ws.isEmpty then none
  else
    let (num, _) := r1.span isDigitDot
    if num.isEmpty then none else some num

/-- Leftmost match of `re.search(kw ++ "[:\s]+([0-9.]+)", text)`, returning
the captured group. -/
def findKeywordNum (kw : List Char) : List Char → Option (List Char)
  | [] => none
  | c :: cs =>
    if List.isPrefixOf kw (c :: cs) then
      match matchColonNum (List.drop kw.length (c :: cs)) with
      | some n => some n
      | none => findKeywordNum kw cs
    else findKeywordNum kw cs

/-- Leftmost match of `re.search("([0-9.]+)\s*" ++ kw, text)`, returning
the captured group.  At a given start the run, the whitespace and the
literal are again forced (no fruitful backtracking), since the keyword
starts with a letter. -/
def findNumKeyword (kw : List Char) : List Char → Option (List Char)
  | [] => none
  | c :: cs =>
    if isDigitDot c then
      let (num, rest) := (c :: cs).span isDigitDot
      let (_, rest2) := rest.span isPySpace
      if List.isPrefixOf kw rest2 then some num else findNumKeyword kw cs
    else findNumKeyword kw cs

/-- The first pattern of `VerificationAgent._extract_confidence_score`
that both matches and parses as a number, on the lowercased text; `none`
models falling through every pattern (no match, or `ValueError` and
`continue`). -/
def rawScore (text : String) : Option ℚ :=
  let t := (text.toList).map Char.toLower
  match (findKeywordNum ("confidence".toList) t).bind parseDec with
  | some q => some q
  | none =>
    match (findNumKeyword ("confidence".toList) t).bind parseDec with
    | some q => some q
    | none => (findKeywordNum ("score".toList) t).bind parseDec

/-- `VerificationAgent._extract_confidence_score`: first matching pattern
wins; a value above 1 is read as a percentage; the result is clamped into
`[0,1]`; with no usable match the neutral default is `0.5`. -/
def extract_confidence_score (text : String) : ℚ :=
  match rawScore text with
  | some s => min (max (if 1 < s then s / 100 else s) 0) 1
  | none => 1 / 2

/-- Result of one Wikipedia page fetch (`wikipedia.page(title)`). -/
structure Page where
  title : String
  summary : String
  url : String
  deriving DecidableEq

/-- One value of the ground-truth mapping: either the recorded
`{title, summary, url}` data or an `{error: message}` marker. -/
inductive GTEntry where
  | info (title summary url : String)
  | error (msg : String)
  deriving DecidableEq

/-- Body of the per-entity loop of `VerificationAgent._get_ground_truth`:
`wikipedia.search(entity, results=1)`, then on a non-empty result list
`wikipedia.page(title, auto_suggest=False)`.  An exception from either
call (modelled by `Except.error`) is caught and recorded as an error
entry; an empty search-result list records nothing for the entity. -/
def groundTruthStep (wsearch : String → Except String (List String))
    (wpage : String → Except String Page) (entity : String) : Option GTEntry :=
  match wsearch entity with
  | .error e => some (.error e)
  | .ok [] => none
  | .ok (t :: _) =>
    match wpage t with
    | .error e => some (.error e)
    | .ok p => some (.info p.title (p.summary.take 500) p.url)

/-- The loop of `_get_ground_truth` over an entity list, returning the
accumulated mapping (the Python dict, as an association list in insertion
order) together with the list of entities for which a Wikipedia lookup
was issued. -/
def gtLoop (wsearch : String → Except String (List String))
    (wpage : String → Except String Page) : List String → List (String × GTEntry) × List String
  | [] => ([], [])
  | e :: rest =>
    let r := gtLoop wsearch wpage rest
    (match groundTruthStep wsearch wpage e with
     | some v => (e, v) :: r.1
     | none => r.1, e :: r.2)

/-- `VerificationAgent._get_ground_truth`: only the first 5 entities are
processed (`entities[:5]`, the rate-limit cap). -/
def get_ground_truth (wsearch : String → Except String (List String))
    (wpage : String → Except String Page) (entities : List String) :
    List (String × GTEntry) × List String :=
  gtLoop wsearch wpage (entities.take 5)

/-- Transient copy of a graph node as the verification agent sees it:
its `_properties` mapping.  A list element `none` models a falsy entry or
an object without `__dict__`, which the extraction loops skip. -/
structure NodeObj where
  properties : List (String × String)
  deriving DecidableEq

/-- Transient copy of a graph relationship as its `__dict__` is read:
the `start`, `type` and `end` keys, each possibly absent. -/
structure RelObj where
  start : Option String
  type : Option String
  end_ : Option String
  deriving DecidableEq

/-- The subgraph dict produced by `ExtractorAgent.extract_subgraph`:
`nodes`, `relationships` and the seeding entity names. -/
structure Subgraph where
  nodes : List (Option NodeObj)
  relationships : List (Option RelObj)
  entities : List String
  deriving DecidableEq

/-- Relationship fact string: `f"{start} {type} {end}"` with the
`.get` defaults `'Entity'`, `'RELATED_TO'`, `'Entity'`. -/
def relFact (r : RelObj) : String :=
  r.start.getD "Entity" ++ " " ++ r.type.getD "RELATED_TO" ++ " " ++ r.end_.getD "Entity"

/-- Node fact string `f"{name} is a {type}"`, produced only when both the
`name` and `type` properties are present. -/
def nodeFact (n : NodeObj) : Option String :=
  match n.properties.lookup "name", n.properties.lookup "type" with
  | some nm, some ty => some (nm ++ " is a " ++ ty)
  | _, _ => none

/-- `VerificationAgent._extract_facts_from_subgraph`: relationship facts
first, then node facts, each in stored order. -/
def extract_facts_from_subgraph (sg : Subgraph) : List String :=
  sg.relationships.filterMap (fun r => Option.map relFact r) ++
    sg.nodes.filterMap (fun n => Option.bind n nodeFact)

/-- The `verification_result` dict returned by
`VerificationAgent._compare_facts`. -/
structure CompareResult where
  analysis : String
  confidence : ℚ
  facts_checked : ℕ
  ground_truth_sources : ℕ
  deriving DecidableEq

/-- The ground-truth text block of the comparison prompt: every entry
that carries a `summary` contributes `f"\n{entity}: {summary}\n"`; error
entries contribute nothing. -/
def gtText (gt : List (String × GTEntry)) : String :=
  gt.foldl
    (fun acc p =>
      match p.2 with
      | .info _ s _ => acc ++ "\n" ++ p.1 ++ ": " ++ s ++ "\n"
      | .error _ => acc)
    ""

/-- The formatted user message of the comparison prompt.  Only the first
10 facts are rendered (`facts[:10]`), one `- fact` line each. -/
def compareUserMsg (query : String) (facts : List String)
    (gt : List (String × GTEntry)) : String :=
  let factsStr := String.intercalate "\n" ((facts.take 10).map (fun f => "- " ++ f))
  let g := gtText gt
  "Query: " ++ query ++ "\n\nFacts from Knowledge Graph:\n" ++ factsStr ++
    "\n\nGround Truth Information:\n" ++
    (if g = "" then "No ground truth available" else g) ++
    "\n\nAnalyze each fact and provide:\n1. Verification status for key facts\n" ++
    "2. Overall confidence score (0-1)\n3. Summary of findings"

/-- `VerificationAgent._compare_facts`: builds the prompt, invokes the
completion capability (the `llm` oracle, keyed by the formatted user
message), parses a confidence out of the response; an exception yields
the hard-failure record with confidence 0 and zeroed counts. -/
def compare_facts (llm : String → Except String String) (facts : List String)
    (gt : List (String × GTEntry)) (query : String) : CompareResult :=
  match llm (compareUserMsg query facts gt) with
  | .ok resp =>
    { analysis := resp
      confidence := extract_confidence_score resp
      facts_checked := facts.length
      ground_truth_sources := gt.length }
  | .error e =>
    { analysis := "Error during verification: " ++ e
      confidence := 0
      facts_checked := 0
      ground_truth_sources := 0 }

/-- The dict returned by `VerificationAgent.verify_facts`. -/
structure VerifyOutput where
  query : String
  facts : List String
  ground_truth : List (String × GTEntry)
  verification : CompareResult
  confidence_score : ℚ
  deriving DecidableEq

/-- `VerificationAgent.verify_facts`: extract facts, resolve ground truth
for the subgraph's entities, compare, and surface the comparison's
confidence. -/
def verify_facts (wsearch : String → Except String (List String))
    (wpage : String → Except String Page) (llm : String → Except String String)
    (subgraph : Subgraph) (query : String) : VerifyOutput :=
  let facts := extract_facts_from_subgraph subgraph
  let gt := (get_ground_truth wsearch wpage subgraph.entities).1
  let vr := compare_facts llm facts gt query
  { query := query
    facts := facts
    ground_truth := gt
    verification := vr
    confidence_score := vr.confidence }

/-- Transient copy of a Neo4j path object as `_parse_path` reads it: the
property maps of its node sequence and the type tags of its relationship
sequence. -/
structure PathObj where
  nodes : List (List (String × String))
  rels : List String
  deriving DecidableEq

/-- A scalar value inside a store record, covering the shapes the core
reads back: strings, the collected string lists of the schema
introspection queries, integers (`length(path)`), path objects and
nulls. -/
inductive Val where
  | vstr (s : String)
  | vstrs (l : List String)
  | vint (n : ℤ)
  | vpath (p : PathObj)
  | vnull
  deriving DecidableEq

/-- One record of a store result: a mapping from column names to values
(`record.data()`). -/
def Rec := List (String × Val)

instance : DecidableEq Rec := inferInstanceAs (DecidableEq (List (String × Val)))

/-- First introspection query of `_get_graph_schema` (whitespace of the
Python triple-quoted literal normalized to single newlines). -/
def schemaLabelsQuery : String :=
  "CALL db.labels() YIELD label\nRETURN collect(label) as labels"

/-- Second introspection query of `_get_graph_schema`. -/
def schemaRelsQuery : String :=
  "CALL db.relationshipTypes() YIELD relationshipType\nRETURN collect(relationshipType) as relationships"

/-- Reading `result[0].get(key, [])` from an introspection result whose
value is a collected string list. -/
def headStrList (rs : List Rec) (key : String) : List String :=
  match rs with
  | [] => []
  | r :: _ =>
    match List.lookup key r with
    | some (.vstrs l) => l
    | _ => []

/-- The hardcoded fallback schema used when introspection raises. -/
def fallbackSchema : String :=
  "Node Labels: Entity, Document\nRelationship Types: EXTRACTED_FROM"

/-- `TextToCypherConverter._get_graph_schema`, with the store modelled as
an oracle `ex` from query text to either an error (a raised exception) or
a record list.  Returns the schema string together with the number of
`execute_query` calls performed (1 when the first query raises, else 2;
an exception from either falls back to the hardcoded schema). -/
def get_graph_schema (ex : String → Except String (List Rec)) : String × ℕ :=
  match ex schemaLabelsQuery with
  | .error _ => (fallbackSchema, 1)
  | .ok lres =>
    match ex schemaRelsQuery with
    | .error _ => (fallbackSchema, 2)
    | .ok rres =>
      ("Node Labels: " ++ String.intercalate ", " (headStrList lres "labels") ++
        "\nRelationship Types: " ++ String.intercalate ", " (headStrList rres "relationships"), 2)

/-- The fixed part of the Cypher-generation system message. -/
def cypherSystemMsg (schema : String) : String :=
  "You are an expert at converting natural language questions to Cypher queries for Neo4j.\n\nGraph Schema:\n"
    ++ schema ++
    "\n\nGuidelines:\n- Use MATCH for reading data\n- Use proper WHERE clauses for filtering\n- Return relevant nodes and relationships\n- Use LIMIT to avoid returning too much data (default LIMIT 10)\n- Ensure the query is syntactically correct\n- Focus on Entity nodes with 'name' and 'type' properties\n\nReturn ONLY the Cypher query without any explanation or markdown formatting."

/-- The instruction appended to the system message from the second
attempt onward (`attempt > 0`). -/
def retryNote : String :=
  "\n\nPrevious attempt failed. Try a simpler or different approach."

/-- The formatted user message of the Cypher-generation prompt. -/
def cypherUserMsg (query : String) : String :=
  "Question: " ++ query ++ "\n\nGenerate a Cypher query:"

/-- A character removed by Python's `str.strip()` (ASCII whitespace). -/
def isStripSpace (c : Char) : Bool :=
  c == ' ' || c == '\t' || c == '\n' || c == '\r' || c == '\x0b' || c == '\x0c'

/-- Python `str.strip()` on the character list. -/
def pyStripChars (s : List Char) : List Char :=
  ((s.dropWhile isStripSpace).reverse.dropWhile isStripSpace).reverse

/-- Python `str.strip()`. -/
def pyStrip (s : String) : String := ⟨pyStripChars s.data⟩

/-- Replace every occurrence of the non-empty pattern `pat` by `repl`,
scanning left to right; `fuel` bounds the recursion and is instantiated
with the input length, which each step strictly decreases. -/
def replaceFuel (pat repl : List Char) : ℕ → List Char → List Char
  | 0, l => l
  | _, [] => []
  | fuel + 1, c :: cs =>
    if List.isPrefixOf pat (c :: cs) then
      repl ++ replaceFuel pat repl fuel (List.drop (pat.length - 1) cs)
    else c :: replaceFuel pat repl fuel cs

/-- Python `str.replace(pat, repl)` for the non-empty patterns used here
(for an empty pattern Python splices `repl` around every character; the
two call sites pass backtick fences, so that case is returned verbatim). -/
def pyReplace (s pat repl : String) : String :=
  if pat.data.isEmpty then s
  else ⟨replaceFuel pat.data repl.data s.data.length s.data⟩

/-- Code-fence cleanup of the model response:
`strip`, remove any "```cypher" wrapper and remaining backtick fences,
`strip` again. -/
def cleanCypher (resp : String) : String :=
  pyStrip (pyReplace (pyReplace (pyStrip resp) "```cypher" "") "```" "")

/-- `TextToCypherConverter._generate_cypher`, with the completion
capability modelled by an oracle `llm` from (system message, user
message) to either a raised exception or the response text; an exception
is caught and yields `none`. -/
def generate_cypher (llm : String → String → Except String String)
    (query schema : String) (attempt : ℕ) : Option String :=
  let sys := cypherSystemMsg schema ++ (if attempt > 0 then retryNote else "")
  match llm sys (cypherUserMsg query) with
  | .error _ => none
  | .ok resp => some (cleanCypher resp)

/-- The result dict of `TextToCypherConverter.query`.  The success dict
carries `cypher` and `data` and no `error`; the terminal failure dict
carries `error` and no `cypher`/`data` (absent keys modelled as
`none`/`[]`). -/
structure QueryResult where
  success : Bool
  query : String
  cypher : Option String
  data : List Rec
  attempts : ℕ
  error : Option String
  deriving DecidableEq

/-- The generic terminal failure message of `TextToCypherConverter.query`. -/
def cypherFailMsg : String :=
  "Failed to generate valid Cypher query after all retries"

/-- The terminal failure dict (`attempts = max_retries`, generic error). -/
def cypherFailResult (nlq : String) (maxRetries : ℕ) : QueryResult :=
  { success := false
    query := nlq
    cypher := none
    data := []
    attempts := maxRetries
    error := some cypherFailMsg }

/-- The retry loop of `TextToCypherConverter.query`, from a given attempt
index with `fuel` attempts remaining, threading the number of completion
invocations (`g`) and of candidate-query store executions (`x`) performed
so far.  One iteration: generate a candidate (one completion invocation);
skip the attempt when generation raised (`none`) or produced an empty
string (`if not cypher_query`); otherwise execute it (one store
execution); return on the first execution that raises no error and
yields a non-empty record list, else loop. -/
def queryLoop (llm : String → String → Except String String)
    (ex : String → Except String (List Rec)) (nlq schema : String)
    (maxRetries : ℕ) : ℕ → ℕ → ℕ → ℕ → QueryResult × ℕ × ℕ
  | 0, _, g, x => (cypherFailResult nlq maxRetries, g, x)
  | fuel + 1, attempt, g, x =>
    match generate_cypher llm nlq schema attempt with
    | none => queryLoop llm ex nlq schema maxRetries fuel (attempt + 1) (g + 1) x
    | some cy =>
      if cy = "" then queryLoop llm ex nlq schema maxRetries fuel (attempt + 1) (g + 1) x
      else
        match ex cy with
        | .error _ => queryLoop llm ex nlq schema maxRetries fuel (attempt + 1) (g + 1) (x + 1)
        | .ok [] => queryLoop llm ex nlq schema maxRetries fuel (attempt + 1) (g + 1) (x + 1)
        | .ok (d :: ds) =>
          ({ success := true
             query := nlq
             cypher := some cy
             data := d :: ds
             attempts := attempt + 1
             error := none }, g + 1, x + 1)

/-- Trace of one `TextToCypherConverter.query` call: the returned dict,
the number of completion-capability invocations, the number of candidate
executions inside the loop, and the number of store executions performed
by the schema introspection. -/
structure QueryTrace where
  result : QueryResult
  genCalls : ℕ
  candExecCalls : ℕ
  schemaExecCalls : ℕ
  deriving DecidableEq

/-- `TextToCypherConverter.query`: fetch the schema (its own store
executions), then run up to `maxRetries` generate-and-execute attempts. -/
def tQuery (llm : String → String → Except String String)
    (ex : String → Except String (List Rec)) (nlq : String)
    (maxRetries : ℕ) : QueryTrace :=
  let p := get_graph_schema ex
  let r := queryLoop llm ex nlq p.1 maxRetries maxRetries 0 0 0
  { result := r.1, genCalls := r.2.1, candExecCalls := r.2.2, schemaExecCalls := p.2 }

/-- One attempt of the retry loop fails: generation raised (`none`),
the cleaned candidate is empty, execution raised, or execution returned
zero records.  Every such attempt falls through to the next one. -/
def attemptFails (llm : String → String → Except String String)
    (ex : String → Except String (List Rec)) (nlq schema : String) (i : ℕ) : Prop :=
  generate_cypher llm nlq schema i = none ∨
    ∃ cy, generate_cypher llm nlq schema i = some cy ∧
      (cy = "" ∨ (∃ e, ex cy = Except.error e) ∨ ex cy = Except.ok [])

/-- One attempt of the retry loop succeeds: a non-empty candidate whose
execution raises no error and returns at least one record. -/
def attemptSucceeds (llm : String → String → Except String String)
    (ex : String → Except String (List Rec)) (nlq schema : String) (i : ℕ) : Prop :=
  ∃ cy r rs, generate_cypher llm nlq schema i = some cy ∧ cy ≠ "" ∧
    ex cy = Except.ok (r :: rs)

/-- Total store executions of one `query` call: schema introspection
plus candidate executions. -/
def totalExecCalls (t : QueryTrace) : ℕ := t.schemaExecCalls + t.candExecCalls

/-- One lineage step, the dict `{from, relationship, to}`. -/
structure LStep where
  from_ : String
  relationship : String
  to_ : String
  deriving DecidableEq

/-- The parameterized shortest-path query of
`LineageTracker.find_path_between_entities`, with `max_depth` spliced in
by `%d` formatting (brace characters written with escapes). -/
def pathQuery (maxDepth : ℕ) : String :=
  "MATCH (start:Entity \x7bname: $start_name\x7d)\nMATCH (end:Entity \x7bname: $end_name\x7d)\nMATCH path = shortestPath((start)-[*.."
    ++ toString maxDepth ++ "]-(end))\nRETURN path, length(path) as path_length"

/-- `LineageTracker._parse_path`: a value that is a path object with node
and relationship sequences is walked, pairing relationship `i` with
nodes `i` and `i+1` (stores return `len(nodes) = len(rels) + 1`; an
out-of-range index would raise in Python, caught by the caller's `try`,
and is modelled here with an empty default node); any other value (such
as a missing `path` column) yields no steps. -/
def parse_path : Option Val → List LStep
  | some (.vpath p) =>
    p.rels.enum.map (fun ir =>
      { from_ := ((p.nodes.getD ir.1 []).lookup "name").getD ("Node_" ++ toString ir.1)
        relationship := ir.2
        to_ := ((p.nodes.getD (ir.1 + 1) []).lookup "name").getD ("Node_" ++ toString (ir.1 + 1)) })
  | _ => []

/-- `LineageTracker._explain_path`: an empty lineage yields the fixed
message, else the rendered `"Path: A →[REL]→ B → ..."` chain. -/
def explain_path (lineage : List LStep) : String :=
  if lineage = [] then "No path information available"
  else
    "Path: " ++ String.intercalate " → "
      (lineage.map (fun s => s.from_ ++ " →[" ++ s.relationship ++ "]→ " ++ s.to_))

/-- The result dict of `find_path_between_entities`; keys absent from a
given branch's dict are modelled as `none` / defaults. -/
structure PathResult where
  found : Bool
  message : Option String
  start_entity : Option String
  end_entity : Option String
  path_length : ℤ
  lineage : List LStep
  explanation : Option String
  error : Option String
  deriving DecidableEq

/-- Reading `path_data.get("path_length", 0)`. -/
def getIntD (r : Rec) (key : String) (d : ℤ) : ℤ :=
  match List.lookup key r with
  | some (.vint n) => n
  | _ => d

/-- `LineageTracker.find_path_between_entities`, with the store modelled
as an oracle from (query text, parameters) to either a raised exception
or a record list.  No results: `{found: false}` with a descriptive
message.  A raised exception: `{found: false, error}`.  Otherwise the
first record's path is decomposed into lineage steps.  Every branch
returns a dict; nothing propagates. -/
def find_path_between_entities
    (ex : String → List (String × String) → Except String (List Rec))
    (start_entity end_entity : String) (max_depth : ℕ) : PathResult :=
  match ex (pathQuery max_depth) [("start_name", start_entity), ("end_name", end_entity)] with
  | .error e =>
    { found := false, message := none, start_entity := none, end_entity := none
      path_length := 0, lineage := [], explanation := none, error := some e }
  | .ok [] =>
    { found := false
      message := some ("No path found between " ++ start_entity ++ " and " ++ end_entity)
      start_entity := none, end_entity := none, path_length := 0, lineage := []
      explanation := none, error := none }
  | .ok (pd :: _) =>
    let lineage := parse_path (List.lookup "path" pd)
    { found := true
      message := none
      start_entity := some start_entity
      end_entity := some end_entity
      path_length := getIntD pd "path_length" 0
      lineage := lineage
      explanation := some (explain_path lineage)
      error := none }

/-- Rendering of a rational with two decimals, modelling Python's
`f"{confidence:.2f}"` for the non-negative scores produced here (binary
floating-point formatting can differ at exact half-way representations). -/
def formatConf2 (q : ℚ) : String :=
  let n := (⌊q * 100 + 1 / 2⌋).toNat
  toString (n / 100) ++ "." ++ (if n % 100 < 10 then "0" else "") ++ toString (n % 100)

/-- `FactCheckingOrchestrator._generate_answer`.  The verification dict
returned by `verify_facts` is always non-empty, so the
`if verification.get("verification")` guard always passes; the
ground-truth block is emitted only when the ground-truth dict is
non-empty, and lists a source line only for entries carrying a `url`. -/
def generate_answer (_query : String) (sg : Subgraph) (v : VerifyOutput) : String :=
  let base :=
    "Based on the knowledge graph analysis:\n\n" ++
      "Found " ++ toString sg.nodes.length ++ " relevant entities and " ++
      toString sg.relationships.length ++ " relationships.\n" ++
      "Confidence Score: " ++ formatConf2 v.confidence_score ++ "\n\n" ++
      "Verification Analysis:\n" ++ v.verification.analysis ++ "\n\n"
  if v.ground_truth = [] then base
  else
    base ++ "Ground Truth Sources:\n" ++
      String.join (v.ground_truth.map (fun p =>
        match p.2 with
        | .info _ _ u => "- " ++ p.1 ++ ": " ++ u ++ "\n"
        | .error _ => ""))

/-- The fixed message of the orchestrator's empty-subgraph failure dict. -/
def noInfoMsg : String := "No relevant information found in the knowledge graph"

/-- The result dict of `FactCheckingOrchestrator.check_facts`; keys
absent from a branch's dict are modelled as `none`. -/
structure CheckResult where
  query : String
  success : Bool
  message : Option String
  answer : Option String
  subgraph : Subgraph
  verification : Option VerifyOutput
  confidence_score : Option ℚ
  deriving DecidableEq

/-- `FactCheckingOrchestrator.check_facts`, with the subgraph extraction
step modelled as an oracle from the query to the extracted subgraph
(`ExtractorAgent.extract_subgraph` always returns a dict with a `nodes`
key).  An empty node list (`if not subgraph.get("nodes")`) yields the
failure dict; otherwise facts are verified and the answer assembled. -/
def check_facts (extract : String → Subgraph)
    (wsearch : String → Except String (List String))
    (wpage : String → Except String Page) (llm : String → Except String String)
    (query : String) : CheckResult :=
  let sg := extract query
  if sg.nodes = [] then
    { query := query
      success := false
      message := some noInfoMsg
      answer := none
      subgraph := sg
      verification := none
      confidence_score := none }
  else
    let v := verify_facts wsearch wpage llm sg query
    { query := query
      success := true
      message := none
      answer := some (generate_answer query sg v)
      subgraph := sg
      verification := some v
      confidence_score := some v.confidence_score }

/-- Sample completion oracle with a constant response. -/
def llmConst (resp : String) : String → String → Except String String :=
  fun _ _ => Except.ok resp

/-- Sample completion oracle that always raises. -/
def llmRaise (msg : String) : String → String → Except String String :=
  fun _ _ => Except.error msg

/-- Sample single-message completion oracle with a constant response. -/
def llm1Const (resp : String) : String → Except String String :=
  fun _ => Except.ok resp

/-- Sample store oracle returning a constant record list. -/
def exConst (recs : List Rec) : String → Except String (List Rec) :=
  fun _ => Except.ok recs

/-- Sample store oracle that always raises. -/
def exRaise (msg : String) : String → Except String (List Rec) :=
  fun _ => Except.error msg

/-- A sample one-record result set. -/
def oneRec : List Rec := [[("n", Val.vstr "x")]]

/-- Sample parameterized store oracle returning a constant record list. -/
def pexConst (recs : List Rec) : String → List (String × String) → Except String (List Rec) :=
  fun _ _ => Except.ok recs

/-- Sample parameterized store oracle that always raises. -/
def pexRaise (msg : String) : String → List (String × String) → Except String (List Rec) :=
  fun _ _ => Except.error msg

/-- Sample Wikipedia search oracle with no results for any name. -/
def wsEmpty : String → Except String (List String) := fun _ => Except.ok []

/-- Sample Wikipedia search oracle that always raises. -/
def wsRaise (msg : String) : String → Except String (List String) :=
  fun _ => Except.error msg

/-- Sample Wikipedia page oracle that always raises. -/
def wpRaise (msg : String) : String → Except String Page :=
  fun _ => Except.error msg

/-- Sample extraction oracle returning an empty subgraph. -/
def extractEmpty : String → Subgraph := fun _ => ⟨[], [], []⟩

/-- Sample extraction oracle returning a one-node subgraph. -/
def extractOneNode : String → Subgraph :=
  fun _ => ⟨[some ⟨[("name", "Microsoft")]⟩], [], ["Microsoft"]⟩

end STE

theorem gtLoop_snd (ws : String → Except String (List String))
    (wp : String → Except String STE.Page) (l : List String) :
    (STE.gtLoop ws wp l).2 = l := by
  induction l with
  | nil => rfl
  | cons e rest ih =>
    show e :: (STE.gtLoop ws wp rest).2 = e :: rest
    rw [ih]

theorem gtLoop_fst_length (ws : String → Except String (List String))
    (wp : String → Except String STE.Page) (l : List String) :
    (STE.gtLoop ws wp l).1.length ≤ l.length := by
  induction l with
  | nil => exact Nat.le_refl 0
  | cons e rest ih =>
    simp only [STE.gtLoop]
    cases h : STE.groundTruthStep ws wp e with
    | none => simpa using Nat.le_succ_of_le ih
    | some v => simpa using Nat.succ_le_succ ih

theorem gtLoop_keys (ws : String → Except String (List String))
    (wp : String → Except String STE.Page) (l : List String)
    (p : String × STE.GTEntry) (hp : p ∈ (STE.gtLoop ws wp l).1) : p.1 ∈ l := by
  induction l with
  | nil => cases hp
  | cons e rest ih =>
    simp only [STE.gtLoop] at hp
    cases h : STE.groundTruthStep ws wp e with
    | none =>
      rw [h] at hp
      exact List.mem_cons_of_mem e (ih hp)
    | some v =>
      rw [h] at hp
      rcases List.mem_cons.mp hp with h1 | h2
      · rw [h1]; exact List.mem_cons_self e rest
      · exact List.mem_cons_of_mem e (ih h2)

theorem gtLoop_mem (ws : String → Except String (List String))
    (wp : String → Except String STE.Page) (l : List String) (e : String)
    (v : STE.GTEntry) (he : e ∈ l) (hv : STE.groundTruthStep ws wp e = some v) :
    (e, v) ∈ (STE.gtLoop ws wp l).1 := by
  induction l with
  | nil => cases he
  | cons a rest ih =>
    simp only [STE.gtLoop]
    rcases List.mem_cons.mp he with h1 | h2
    · subst h1
      rw [hv]
      exact List.mem_cons_self _ _
    · cases h : STE.groundTruthStep ws wp a with
      | none => simpa using ih h2
      | some w => simpa using Or.inr (ih h2)

theorem strAppendAssoc (a b c : String) : a ++ b ++ c = a ++ (b ++ c) := by
  rw [String.congr_append a b, String.congr_append (String.mk (a.data ++ b.data)) c,
    String.congr_append b c, String.congr_append a (String.mk (b.data ++ c.data))]
  exact congrArg String.mk (List.append_assoc _ _ _)

/-- C5: resolving ground truth on an entity-name list longer than 5 issues
external lookups only for the first 5 names (exactly 5 of them), and the
returned mapping has at most 5 entries, each keyed by one of those first
5 names. -/
theorem c5_ground_truth_cap (ws : String → Except String (List String))
    (wp : String → Except String STE.Page) (entities : List String)
    (h : 5 < entities.length) :
    ((STE.get_ground_truth ws wp entities).2 = entities.take 5 ∧
      (STE.get_ground_truth ws wp entities).2.length = 5) ∧
    (STE.get_ground_truth ws wp entities).1.length ≤ 5 ∧
    ∀ p ∈ (STE.get_ground_truth ws wp entities).1, p.1 ∈ entities.take 5 := by
  refine ⟨⟨gtLoop_snd ws wp _, ?_⟩, ?_, ?_⟩
  · show (STE.gtLoop ws wp (entities.take 5)).2.length = 5
    rw [gtLoop_snd ws wp _, List.length_take]
    omega
  · exact le_trans (gtLoop_fst_length ws wp _) (List.length_take_le 5 entities)
  · intro p hp
    exact gtLoop_keys ws wp _ p hp

/-- Witness for C5 at a six-element entity list with an unhelpful
Wikipedia oracle. -/
theorem c5_ground_truth_cap_witness :
    5 < (["a", "b", "c", "d", "e", "f"] : List String).length ∧
    (((STE.get_ground_truth STE.wsEmpty (STE.wpRaise "x") ["a", "b", "c", "d", "e", "f"]).2
          = (["a", "b", "c", "d", "e", "f"] : List String).take 5 ∧
        (STE.get_ground_truth STE.wsEmpty (STE.wpRaise "x") ["a", "b", "c", "d", "e", "f"]).2.length = 5) ∧
      (STE.get_ground_truth STE.wsEmpty (STE.wpRaise "x") ["a", "b", "c", "d", "e", "f"]).1.length ≤ 5 ∧
      ∀ p ∈ (STE.get_ground_truth STE.wsEmpty (STE.wpRaise "x") ["a", "b", "c", "d", "e", "f"]).1,
        p.1 ∈ (["a", "b", "c", "d", "e", "f"] : List String).take 5) :=
  ⟨by decide, c5_ground_truth_cap _ _ _ (by decide)⟩

/-- C6: a processed name whose lookup raises (search exception, or a page
fetch exception covering not-found, disambiguation and network errors)
gets an error entry in the mapping, and the batch still processes every
one of the first 5 names. -/
theorem c6_lookup_failure_recorded (ws : String → Except String (List String))
    (wp : String → Except String STE.Page) (entities : List String)
    (e m : String) (he : e ∈ entities.take 5)
    (hf : ws e = Except.error m ∨
      ∃ t ts, ws e = Except.ok (t :: ts) ∧ wp t = Except.error m) :
    (e, STE.GTEntry.error m) ∈ (STE.get_ground_truth ws wp entities).1 ∧
    (STE.get_ground_truth ws wp entities).2 = entities.take 5 := by
  have hstep : STE.groundTruthStep ws wp e = some (STE.GTEntry.error m) := by
    rcases hf with h1 | ⟨t, ts, h2, h3⟩
    · simp [STE.groundTruthStep, h1]
    · simp [STE.groundTruthStep, h2, h3]
  exact ⟨gtLoop_mem ws wp _ e _ he hstep, gtLoop_snd ws wp _⟩

/-- Witness for C6 at a one-element entity list whose search raises. -/
theorem c6_lookup_failure_recorded_witness :
    ("alice" ∈ (["alice"] : List String).take 5 ∧
      STE.wsRaise "boom" "alice" = Except.error "boom") ∧
    (("alice", STE.GTEntry.error "boom") ∈
        (STE.get_ground_truth (STE.wsRaise "boom") (STE.wpRaise "x") ["alice"]).1 ∧
      (STE.get_ground_truth (STE.wsRaise "boom") (STE.wpRaise "x") ["alice"]).2
        = (["alice"] : List String).take 5) :=
  ⟨⟨by decide, rfl⟩,
    c6_lookup_failure_recorded _ _ ["alice"] "alice" "boom" (by decide) (Or.inl rfl)⟩

/-- C7: on a subgraph with a single relationship `(A)-[OWNS]->(B)` and no
node carrying both a name and a type property, the fact extractor yields
exactly the fact string `"A OWNS B"`; in general relationship facts come
first and node facts only arise from nodes with both properties. -/
theorem c7_single_relationship_fact (a b : String)
    (nodes : List (Option STE.NodeObj)) (ents : List String)
    (hn : ∀ n : STE.NodeObj, some n ∈ nodes → STE.nodeFact n = none) :
    STE.extract_facts_from_subgraph ⟨nodes, [some ⟨some a, some "OWNS", some b⟩], ents⟩
        = [a ++ " OWNS " ++ b] ∧
    ∀ sg : STE.Subgraph, STE.extract_facts_from_subgraph sg =
      sg.relationships.filterMap (fun r => Option.map STE.relFact r) ++
        sg.nodes.filterMap (fun n => Option.bind n STE.nodeFact) := by
  constructor
  · have hzero : nodes.filterMap (fun n => Option.bind n STE.nodeFact) = [] := by
      rw [List.filterMap_eq_nil_iff]
      intro o ho
      cases o with
      | none => rfl
      | some n => exact hn n ho
    have key : a ++ " " ++ "OWNS" ++ " " ++ b = a ++ " OWNS " ++ b := by
      rw [strAppendAssoc (a ++ " " ++ "OWNS") " " b, strAppendAssoc (a ++ " ") "OWNS" (" " ++ b),
        strAppendAssoc a " " ("OWNS" ++ (" " ++ b)), strAppendAssoc a " OWNS " b]
      exact rfl
    simp [STE.extract_facts_from_subgraph, STE.relFact, hzero, key]
  · intro sg
    rfl

/-- Witness for C7 at the Microsoft–OWNS–LinkedIn relationship with one
non-qualifying node (a name but no type). -/
theorem c7_single_relationship_fact_witness :
    (∀ n : STE.NodeObj,
        some n ∈ ([some ⟨[("name", "X")]⟩] : List (Option STE.NodeObj)) →
        STE.nodeFact n = none) ∧
    STE.extract_facts_from_subgraph
        ⟨[some ⟨[("name", "X")]⟩],
          [some ⟨some "Microsoft", some "OWNS", some "LinkedIn"⟩], []⟩
      = ["Microsoft OWNS LinkedIn"] := by
  have hnn : ∀ n : STE.NodeObj,
      some n ∈ ([some ⟨[("name", "X")]⟩] : List (Option STE.NodeObj)) →
      STE.nodeFact n = none := by
    intro n hn
    simp only [List.mem_singleton, Option.some.injEq] at hn
    rw [hn]
    rfl
  exact ⟨hnn,
    ((c7_single_relationship_fact "Microsoft" "LinkedIn" _ [] hnn).1).trans rfl⟩

/-- C4: the confidence parser always lands in [0, 1]; it reads
`"confidence: 0.8"` as 0.8; a first matched value above 1 is divided by
100 before clamping; and with no usable match the result is exactly
0.5. -/
theorem c4_confidence_parsing :
    (∀ text : String,
        0 ≤ STE.extract_confidence_score text ∧ STE.extract_confidence_score text ≤ 1) ∧
    STE.extract_confidence_score "confidence: 0.8" = 0.8 ∧
    (∀ (text : String) (s : ℚ), STE.rawScore text = some s → 1 < s →
      STE.extract_confidence_score text = min (max (s / 100) 0) 1) ∧
    (∀ text : String, STE.rawScore text = none →
      STE.extract_confidence_score text = 1 / 2) := by
  refine ⟨?_, ?_, ?_, ?_⟩
  · intro text
    unfold STE.extract_confidence_score
    cases h : STE.rawScore text with
    | none => norm_num
    | some s => exact ⟨le_min (le_max_right _ _) (by norm_num), min_le_right _ _⟩
  · have h : STE.rawScore "confidence: 0.8"
        = some (((0 : ℕ) : ℚ) + ((8 : ℕ) : ℚ) / 10 ^ 1) := rfl
    rw [STE.extract_confidence_score, h]
    norm_num
  · intro text s h hs
    simp [STE.extract_confidence_score, h, hs]
  · intro text h
    simp [STE.extract_confidence_score, h]

/-- Witness for C4 at a percentage-style response (matched value 80 > 1)
and at a response with no usable pattern. -/
theorem c4_confidence_parsing_witness :
    (STE.rawScore "confidence score: 80%" = some ((80 : ℕ) : ℚ) ∧
      (1 : ℚ) < ((80 : ℕ) : ℚ) ∧
      STE.extract_confidence_score "confidence score: 80%"
        = min (max (((80 : ℕ) : ℚ) / 100) 0) 1) ∧
    (STE.rawScore "no signal here" = none ∧
      STE.extract_confidence_score "no signal here" = 1 / 2) :=
  ⟨⟨rfl, by decide, c4_confidence_parsing.2.2.1 _ _ rfl (by decide)⟩,
    ⟨rfl, c4_confidence_parsing.2.2.2 _ rfl⟩⟩

/-- C10: when the comparison call succeeds, `facts_checked` reports the
full fact count while the prompt sent to the completion capability only
ever contains the first 10 facts (the prompt is unchanged by dropping
facts beyond the tenth). -/
theorem c10_facts_checked_total (llm : String → Except String String)
    (facts : List String) (gt : List (String × STE.GTEntry)) (q resp : String)
    (h : llm (STE.compareUserMsg q facts gt) = Except.ok resp) :
    (STE.compare_facts llm facts gt q).facts_checked = facts.length ∧
    STE.compareUserMsg q facts gt = STE.compareUserMsg q (facts.take 10) gt := by
  constructor
  · simp [STE.compare_facts, h]
  · simp [STE.compareUserMsg, List.take_take]

/-- Witness for C10 at an 11-fact list: `facts_checked` is 11 though only
10 facts can appear in the prompt. -/
theorem c10_facts_checked_total_witness :
    STE.llm1Const "ok" (STE.compareUserMsg "q" (List.replicate 11 "f") []) = Except.ok "ok" ∧
    ((STE.compare_facts (STE.llm1Const "ok") (List.replicate 11 "f") [] "q").facts_checked
        = (List.replicate 11 "f").length ∧
      STE.compareUserMsg "q" (List.replicate 11 "f") []
        = STE.compareUserMsg "q" ((List.replicate 11 "f").take 10) []) ∧
    (List.replicate 11 "f").length = 11 ∧
    ((List.replicate 11 "f").take 10).length = 10 :=
  ⟨rfl, c10_facts_checked_total _ _ _ _ _ rfl, by decide, by decide⟩

theorem queryLoop_fail_step (llm : String → String → Except String String)
    (ex : String → Except String (List STE.Rec)) (nlq schema : String)
    (maxR attempt g x fuel : ℕ)
    (hfail : STE.attemptFails llm ex nlq schema attempt) :
    ∃ x2, x ≤ x2 ∧ x2 ≤ x + 1 ∧
      STE.queryLoop llm ex nlq schema maxR (fuel + 1) attempt g x =
        STE.queryLoop llm ex nlq schema maxR fuel (attempt + 1) (g + 1) x2 := by
  rcases hfail with hnone | ⟨cy, hg, hcy⟩
  · exact ⟨x, le_refl x, Nat.le_succ x, by simp [STE.queryLoop, hnone]⟩
  · by_cases hE : cy = ""
    · exact ⟨x, le_refl x, Nat.le_succ x, by simp [STE.queryLoop, hg, hE]⟩
    · rcases hcy with hcyE | ⟨e, hex⟩ | hexOk
      · exact absurd hcyE hE
      · exact ⟨x + 1, Nat.le_succ x, le_refl _, by simp [STE.queryLoop, hg, hE, hex]⟩
      · exact ⟨x + 1, Nat.le_succ x, le_refl _, by simp [STE.queryLoop, hg, hE, hexOk]⟩

theorem queryLoop_succ_result (llm : String → String → Except String String)
    (ex : String → Except String (List STE.Rec)) (nlq schema : String) (maxR : ℕ) :
    ∀ j fuel attempt g x : ℕ, j < fuel →
      (∀ i, i < j → STE.attemptFails llm ex nlq schema (attempt + i)) →
      STE.attemptSucceeds llm ex nlq schema (attempt + j) →
      ((STE.queryLoop llm ex nlq schema maxR fuel attempt g x).1.success = true ∧
        (STE.queryLoop llm ex nlq schema maxR fuel attempt g x).1.attempts = attempt + j + 1 ∧
        (STE.queryLoop llm ex nlq schema maxR fuel attempt g x).2.1 = g + j + 1 ∧
        (STE.queryLoop llm ex nlq schema maxR fuel attempt g x).2.2 ≤ x + j + 1) := by
  intro j
  induction j with
  | zero =>
    intro fuel attempt g x hj _ hs
    obtain ⟨cy, r, rs, hgc, hne, hex⟩ := hs
    simp only [Nat.add_zero] at hgc hex
    cases fuel with
    | zero => exact absurd hj (by omega)
    | succ f => refine ⟨?_, ?_, ?_, ?_⟩ <;> simp [STE.queryLoop, hgc, hne, hex]
  | succ j ih =>
    intro fuel attempt g x hj hf hs
    cases fuel with
    | zero => exact absurd hj (by omega)
    | succ f =>
      have h0 : STE.attemptFails llm ex nlq schema attempt := by simpa using hf 0 (by omega)
      obtain ⟨x2, hx2a, hx2b, heq⟩ :=
        queryLoop_fail_step llm ex nlq schema maxR attempt g x f h0
      rw [heq]
      have hf2 : ∀ i, i < j → STE.attemptFails llm ex nlq schema (attempt + 1 + i) := by
        intro i hi
        have := hf (i + 1) (by omega)
        rwa [show attempt + (i + 1) = attempt + 1 + i by omega] at this
      have hs2 : STE.attemptSucceeds llm ex nlq schema (attempt + 1 + j) := by
        rwa [show attempt + (j + 1) = attempt + 1 + j by omega] at hs
      obtain ⟨ihs, iha, ihg, ihx⟩ := ih f (attempt + 1) (g + 1) x2 (by omega) hf2 hs2
      exact ⟨ihs, iha.trans (by omega), ihg.trans (by omega), by omega⟩

theorem queryLoop_allFail (llm : String → String → Except String String)
    (ex : String → Except String (List STE.Rec)) (nlq schema : String) (maxR : ℕ) :
    ∀ fuel attempt g x : ℕ,
      (∀ i, i < fuel → STE.attemptFails llm ex nlq schema (attempt + i)) →
      (STE.queryLoop llm ex nlq schema maxR fuel attempt g x).1
        = STE.cypherFailResult nlq maxR := by
  intro fuel
  induction fuel with
  | zero => intro attempt g x _; rfl
  | succ f ih =>
    intro attempt g x hf
    have h0 : STE.attemptFails llm ex nlq schema attempt := by simpa using hf 0 (by omega)
    obtain ⟨x2, _, _, heq⟩ := queryLoop_fail_step llm ex nlq schema maxR attempt g x f h0
    rw [heq]
    refine ih (attempt + 1) (g + 1) x2 ?_
    intro i hi
    have := hf (i + 1) (by omega)
    rwa [show attempt + (i + 1) = attempt + 1 + i by omega] at this

theorem queryLoop_counts (llm : String → String → Except String String)
    (ex : String → Except String (List STE.Rec)) (nlq schema : String) (maxR : ℕ) :
    ∀ fuel attempt g x : ℕ,
      (STE.queryLoop llm ex nlq schema maxR fuel attempt g x).2.1 ≤ g + fuel ∧
      (STE.queryLoop llm ex nlq schema maxR fuel attempt g x).2.2 ≤ x + fuel := by
  intro fuel
  induction fuel with
  | zero => intro attempt g x; constructor <;> simp [STE.queryLoop]
  | succ f ih =>
    intro attempt g x
    obtain ⟨ihA1, ihA2⟩ := ih (attempt + 1) (g + 1) x
    obtain ⟨ihB1, ihB2⟩ := ih (attempt + 1) (g + 1) (x + 1)
    cases hgc : STE.generate_cypher llm nlq schema attempt with
    | none => constructor <;> (simp [STE.queryLoop, hgc] <;> omega)
    | some cy =>
      by_cases hE : cy = ""
      · constructor <;> (simp [STE.queryLoop, hgc, hE] <;> omega)
      · cases hex : ex cy with
        | error e => constructor <;> (simp [STE.queryLoop, hgc, hE, hex] <;> omega)
        | ok l =>
          cases l with
          | nil => constructor <;> (simp [STE.queryLoop, hgc, hE, hex] <;> omega)
          | cons d ds => constructor <;> (simp [STE.queryLoop, hgc, hE, hex] <;> omega)

theorem schema_calls_le (ex : String → Except String (List STE.Rec)) :
    (STE.get_graph_schema ex).2 ≤ 2 := by
  unfold STE.get_graph_schema
  cases h1 : ex STE.schemaLabelsQuery with
  | error e => simp
  | ok l =>
    cases h2 : ex STE.schemaRelsQuery with
    | error e => simp
    | ok r => simp

/-- C1: if every attempt before `k` fails and attempt `k` (1-indexed)
executes without error and returns at least one record, `query` returns
`success = true` with `attempts = k` after exactly `k` synthesis calls
and at most `k` candidate executions; and any failing attempt (execution
error, empty result set, or unusable candidate) just moves the loop to
the next attempt. -/
theorem c1_success_on_attempt_k (llm : String → String → Except String String)
    (ex : String → Except String (List STE.Rec)) (nlq : String) (maxR k : ℕ)
    (hk1 : 1 ≤ k) (hk2 : k ≤ maxR)
    (hfail : ∀ i, i < k - 1 → STE.attemptFails llm ex nlq (STE.get_graph_schema ex).1 i)
    (hsucc : STE.attemptSucceeds llm ex nlq (STE.get_graph_schema ex).1 (k - 1)) :
    ((STE.tQuery llm ex nlq maxR).result.success = true ∧
      (STE.tQuery llm ex nlq maxR).result.attempts = k ∧
      (STE.tQuery llm ex nlq maxR).genCalls = k ∧
      (STE.tQuery llm ex nlq maxR).candExecCalls ≤ k) ∧
    (∀ fuel attempt g x,
      STE.attemptFails llm ex nlq (STE.get_graph_schema ex).1 attempt →
      ∃ x2, x ≤ x2 ∧ x2 ≤ x + 1 ∧
        STE.queryLoop llm ex nlq (STE.get_graph_schema ex).1 maxR (fuel + 1) attempt g x =
          STE.queryLoop llm ex nlq (STE.get_graph_schema ex).1 maxR fuel (attempt + 1) (g + 1) x2) := by
  constructor
  · obtain ⟨h1, h2, h3, h4⟩ :=
      queryLoop_succ_result llm ex nlq (STE.get_graph_schema ex).1 maxR (k - 1) maxR 0 0 0
        (by omega) (by intro i hi; simpa using hfail i hi) (by simpa using hsucc)
    have e1 : (STE.tQuery llm ex nlq maxR).result.success = true := h1
    have e2 : (STE.tQuery llm ex nlq maxR).result.attempts = 0 + (k - 1) + 1 := h2
    have e3 : (STE.tQuery llm ex nlq maxR).genCalls = 0 + (k - 1) + 1 := h3
    have e4 : (STE.tQuery llm ex nlq maxR).candExecCalls ≤ 0 + (k - 1) + 1 := h4
    exact ⟨e1, e2.trans (by omega), e3.trans (by omega), le_trans e4 (by omega)⟩
  · intro fuel attempt g x hstep
    exact queryLoop_fail_step llm ex nlq _ maxR attempt g x fuel hstep

/-- Witness for C1 at `k = 1` with a cooperative model and a one-record
store. -/
theorem c1_success_on_attempt_k_witness :
    (1 ≤ 1 ∧ 1 ≤ 3 ∧
      (∀ i, i < 1 - 1 →
        STE.attemptFails (STE.llmConst "MATCH (n) RETURN n") (STE.exConst STE.oneRec) "q"
          (STE.get_graph_schema (STE.exConst STE.oneRec)).1 i) ∧
      STE.attemptSucceeds (STE.llmConst "MATCH (n) RETURN n") (STE.exConst STE.oneRec) "q"
        (STE.get_graph_schema (STE.exConst STE.oneRec)).1 0) ∧
    ((STE.tQuery (STE.llmConst "MATCH (n) RETURN n") (STE.exConst STE.oneRec) "q" 3).result.success = true ∧
      (STE.tQuery (STE.llmConst "MATCH (n) RETURN n") (STE.exConst STE.oneRec) "q" 3).result.attempts = 1 ∧
      (STE.tQuery (STE.llmConst "MATCH (n) RETURN n") (STE.exConst STE.oneRec) "q" 3).genCalls = 1 ∧
      (STE.tQuery (STE.llmConst "MATCH (n) RETURN n") (STE.exConst STE.oneRec) "q" 3).candExecCalls ≤ 1) := by
  have hs : STE.attemptSucceeds (STE.llmConst "MATCH (n) RETURN n") (STE.exConst STE.oneRec) "q"
      (STE.get_graph_schema (STE.exConst STE.oneRec)).1 0 := by
    refine ⟨"MATCH (n) RETURN n", [("n", STE.Val.vstr "x")], [], rfl, ?_, rfl⟩
    decide
  refine ⟨⟨le_refl 1, by omega, fun i hi => absurd hi (by omega), hs⟩, ?_⟩
  exact (c1_success_on_attempt_k _ _ _ 3 1 (le_refl 1) (by omega)
    (fun i hi => absurd hi (by omega)) hs).1

/-- C2 fails on the code: one `query` call with `max_retries = 1` already
performs 3 store executions (2 schema-introspection queries plus the
successful candidate), exceeding the claimed bound of 1. -/
theorem c2_counterexample_three_executions :
    STE.totalExecCalls (STE.tQuery (STE.llmConst "MATCH (n) RETURN n")
      (STE.exConst STE.oneRec) "q" 1) = 3 ∧
    ¬(STE.totalExecCalls (STE.tQuery (STE.llmConst "MATCH (n) RETURN n")
      (STE.exConst STE.oneRec) "q" 1) ≤ 1) := by
  constructor
  · rfl
  · intro h
    have e : STE.totalExecCalls (STE.tQuery (STE.llmConst "MATCH (n) RETURN n")
        (STE.exConst STE.oneRec) "q" 1) = 3 := rfl
    omega

/-- C2 (amended): one `query` call performs at most `N` completion
invocations and at most `N + 2` store executions in total — `N` candidate
executions plus at most 2 schema-introspection queries. -/
theorem c2_call_bounds_amended (llm : String → String → Except String String)
    (ex : String → Except String (List STE.Rec)) (nlq : String) (maxR : ℕ)
    (h : 1 ≤ maxR) :
    (STE.tQuery llm ex nlq maxR).genCalls ≤ maxR ∧
    STE.totalExecCalls (STE.tQuery llm ex nlq maxR) ≤ maxR + 2 := by
  obtain ⟨h1, h2⟩ :=
    queryLoop_counts llm ex nlq (STE.get_graph_schema ex).1 maxR maxR 0 0 0
  have e1 : (STE.tQuery llm ex nlq maxR).genCalls ≤ 0 + maxR := h1
  have e2 : (STE.tQuery llm ex nlq maxR).candExecCalls ≤ 0 + maxR := h2
  have e3 : (STE.tQuery llm ex nlq maxR).schemaExecCalls ≤ 2 := schema_calls_le ex
  have e4 : STE.totalExecCalls (STE.tQuery llm ex nlq maxR)
      = (STE.tQuery llm ex nlq maxR).schemaExecCalls
        + (STE.tQuery llm ex nlq maxR).candExecCalls := rfl
  constructor
  · omega
  · omega

/-- Witness for the amended C2 at `N = 1`. -/
theorem c2_call_bounds_amended_witness :
    1 ≤ 1 ∧
    ((STE.tQuery (STE.llmConst "MATCH (n) RETURN n") (STE.exConst STE.oneRec) "q" 1).genCalls ≤ 1 ∧
      STE.totalExecCalls (STE.tQuery (STE.llmConst "MATCH (n) RETURN n")
        (STE.exConst STE.oneRec) "q" 1) ≤ 1 + 2) :=
  ⟨le_refl 1, c2_call_bounds_amended _ _ _ 1 (le_refl 1)⟩

/-- C3: when every attempt fails, `query` returns the terminal failure
dict with `success = false`, `attempts = max_retries` and the fixed
generic error message; the result is the same whatever the specific
execution errors were (the last error is not preserved). -/
theorem c3_terminal_failure (llm : String → String → Except String String)
    (ex : String → Except String (List STE.Rec)) (nlq : String) (maxR : ℕ)
    (hfail : ∀ i, i < maxR → STE.attemptFails llm ex nlq (STE.get_graph_schema ex).1 i) :
    (STE.tQuery llm ex nlq maxR).result = STE.cypherFailResult nlq maxR ∧
    (STE.tQuery llm ex nlq maxR).result.success = false ∧
    (STE.tQuery llm ex nlq maxR).result.attempts = maxR ∧
    (STE.tQuery llm ex nlq maxR).result.error = some STE.cypherFailMsg ∧
    ∀ ex2 : String → Except String (List STE.Rec),
      (∀ i, i < maxR → STE.attemptFails llm ex2 nlq (STE.get_graph_schema ex2).1 i) →
      (STE.tQuery llm ex2 nlq maxR).result = (STE.tQuery llm ex nlq maxR).result := by
  have main : (STE.tQuery llm ex nlq maxR).result = STE.cypherFailResult nlq maxR :=
    queryLoop_allFail llm ex nlq (STE.get_graph_schema ex).1 maxR maxR 0 0 0
      (by intro i hi; simpa using hfail i hi)
  refine ⟨main, by rw [main]; rfl, by rw [main]; rfl, by rw [main]; rfl, ?_⟩
  intro ex2 h2
  rw [main]
  exact queryLoop_allFail llm ex2 nlq (STE.get_graph_schema ex2).1 maxR maxR 0 0 0
    (by intro i hi; simpa using h2 i hi)

/-- Witness for C3 with a completion capability that always raises and
`max_retries = 2`. -/
theorem c3_terminal_failure_witness :
    (∀ i, i < 2 → STE.attemptFails (STE.llmRaise "down") (STE.exConst STE.oneRec) "q"
      (STE.get_graph_schema (STE.exConst STE.oneRec)).1 i) ∧
    ((STE.tQuery (STE.llmRaise "down") (STE.exConst STE.oneRec) "q" 2).result
        = STE.cypherFailResult "q" 2 ∧
      (STE.tQuery (STE.llmRaise "down") (STE.exConst STE.oneRec) "q" 2).result.success = false ∧
      (STE.tQuery (STE.llmRaise "down") (STE.exConst STE.oneRec) "q" 2).result.attempts = 2 ∧
      (STE.tQuery (STE.llmRaise "down") (STE.exConst STE.oneRec) "q" 2).result.error
        = some STE.cypherFailMsg) := by
  have hfail : ∀ i, i < 2 → STE.attemptFails (STE.llmRaise "down") (STE.exConst STE.oneRec) "q"
      (STE.get_graph_schema (STE.exConst STE.oneRec)).1 i :=
    fun i _ => Or.inl rfl
  have h := c3_terminal_failure (STE.llmRaise "down") (STE.exConst STE.oneRec) "q" 2 hfail
  exact ⟨hfail, h.1, h.2.1, h.2.2.1, h.2.2.2.1⟩

/-- C8: when the shortest-path query returns no results the path finder
returns `{found: false}` with a descriptive message, and when the store
raises it returns `{found: false, error}`; both branches produce a result
dict rather than propagating anything. -/
theorem c8_path_finder_failure_branches
    (ex : String → List (String × String) → Except String (List STE.Rec))
    (s e : String) (d : ℕ) :
    (ex (STE.pathQuery d) [("start_name", s), ("end_name", e)] = Except.ok [] →
      STE.find_path_between_entities ex s e d =
        { found := false
          message := some ("No path found between " ++ s ++ " and " ++ e)
          start_entity := none
          end_entity := none
          path_length := 0
          lineage := []
          explanation := none
          error := none }) ∧
    (∀ msg, ex (STE.pathQuery d) [("start_name", s), ("end_name", e)] = Except.error msg →
      STE.find_path_between_entities ex s e d =
        { found := false
          message := none
          start_entity := none
          end_entity := none
          path_length := 0
          lineage := []
          explanation := none
          error := some msg }) := by
  constructor
  · intro h
    simp [STE.find_path_between_entities, h]
  · intro msg h
    simp [STE.find_path_between_entities, h]

/-- Witness for C8 at an empty-result store and at a raising store. -/
theorem c8_path_finder_failure_branches_witness :
    (STE.pexConst [] (STE.pathQuery 5) [("start_name", "X"), ("end_name", "Y")] = Except.ok [] ∧
      STE.find_path_between_entities (STE.pexConst []) "X" "Y" 5 =
        { found := false
          message := some "No path found between X and Y"
          start_entity := none
          end_entity := none
          path_length := 0
          lineage := []
          explanation := none
          error := none }) ∧
    (STE.pexRaise "boom" (STE.pathQuery 5) [("start_name", "X"), ("end_name", "Y")]
        = Except.error "boom" ∧
      STE.find_path_between_entities (STE.pexRaise "boom") "X" "Y" 5 =
        { found := false
          message := none
          start_entity := none
          end_entity := none
          path_length := 0
          lineage := []
          explanation := none
          error := some "boom" }) := by
  refine ⟨⟨rfl, ?_⟩, ⟨rfl, ?_⟩⟩
  · exact ((c8_path_finder_failure_branches (STE.pexConst []) "X" "Y" 5).1 rfl).trans (by rfl)
  · exact (c8_path_finder_failure_branches (STE.pexRaise "boom") "X" "Y" 5).2 "boom" rfl

/-- C9: `check_facts` reports `success = false` — with the fixed message,
the subgraph and no verification payload — exactly when the extracted
subgraph's node list is empty; with a non-empty node list it reports
`success = true` with an answer, the verification payload and its
confidence score. -/
theorem c9_check_facts_success_iff_nodes
    (extract : String → STE.Subgraph) (ws : String → Except String (List String))
    (wp : String → Except String STE.Page) (llm : String → Except String String)
    (q : String) :
    ((STE.check_facts extract ws wp llm q).success = false ↔ (extract q).nodes = []) ∧
    ((extract q).nodes = [] →
      STE.check_facts extract ws wp llm q =
        { query := q
          success := false
          message := some STE.noInfoMsg
          answer := none
          subgraph := extract q
          verification := none
          confidence_score := none }) ∧
    ((extract q).nodes ≠ [] →
      STE.check_facts extract ws wp llm q =
        { query := q
          success := true
          message := none
          answer := some (STE.generate_answer q (extract q)
            (STE.verify_facts ws wp llm (extract q) q))
          subgraph := extract q
          verification := some (STE.verify_facts ws wp llm (extract q) q)
          confidence_score := some (STE.verify_facts ws wp llm (extract q) q).confidence_score }) := by
  by_cases h : (extract q).nodes = []
  · refine ⟨⟨fun _ => h, fun _ => ?_⟩, fun _ => ?_, fun hne => absurd h hne⟩
    · simp [STE.check_facts, h]
    · simp [STE.check_facts, h]
  · refine ⟨⟨fun hf => ?_, fun hh => absurd hh h⟩, fun hh => absurd hh h, fun _ => ?_⟩
    · have ht : (STE.check_facts extract ws wp llm q).success = true := by
        simp [STE.check_facts, h]
      rw [ht] at hf
      cases hf
    · simp [STE.check_facts, h]

/-- Witness for C9 at an empty extraction and at a one-node extraction. -/
theorem c9_check_facts_success_iff_nodes_witness :
    ((STE.extractEmpty "q").nodes = [] ∧
      STE.check_facts STE.extractEmpty STE.wsEmpty (STE.wpRaise "e") (STE.llm1Const "ok") "q" =
        { query := "q"
          success := false
          message := some STE.noInfoMsg
          answer := none
          subgraph := STE.extractEmpty "q"
          verification := none
          confidence_score := none }) ∧
    ((STE.extractOneNode "q").nodes ≠ [] ∧
      STE.check_facts STE.extractOneNode STE.wsEmpty (STE.wpRaise "e") (STE.llm1Const "ok") "q" =
        { query := "q"
          success := true
          message := none
          answer := some (STE.generate_answer "q" (STE.extractOneNode "q")
            (STE.verify_facts STE.wsEmpty (STE.wpRaise "e") (STE.llm1Const "ok")
              (STE.extractOneNode "q") "q"))
          subgraph := STE.extractOneNode "q"
          verification := some (STE.verify_facts STE.wsEmpty (STE.wpRaise "e")
            (STE.llm1Const "ok") (STE.extractOneNode "q") "q")
          confidence_score := some (STE.verify_facts STE.wsEmpty (STE.wpRaise "e")
            (STE.llm1Const "ok") (STE.extractOneNode "q") "q").confidence_score }) := by
  have hne : (STE.extractOneNode "q").nodes ≠ [] := by simp [STE.extractOneNode]
  exact ⟨⟨rfl, (c9_check_facts_success_iff_nodes STE.extractEmpty STE.wsEmpty
      (STE.wpRaise "e") (STE.llm1Const "ok") "q").2.1 rfl⟩,
    ⟨hne, (c9_check_facts_success_iff_nodes STE.extractOneNode STE.wsEmpty
      (STE.wpRaise "e") (STE.llm1Const "ok") "q").2.2 hne⟩⟩

